import Mathlib

/-!
Shallow embedding of `ztron/src/builder.rs` (shielded-transaction builder).

Conventions of the embedding:
* Byte strings (`Vec<u8>`, fixed byte arrays) are `List Nat`, each entry a byte.
* `U256` values are `Nat`; the `uint` crate panics on overflowing `Mul` and on
  `exp10` overflow, so those operations return `Option Nat` (`none` = panic).
* `Amount` (zcash_primitives) is `Int`; `Amount::from_u64` enforces the
  `MAX_MONEY` bound and fails otherwise.
* Field elements (`Fr`), scalars (`Fs`), keys, diversifiers and curve points
  are opaque: they are modelled as `Nat` tokens, and every external
  cryptographic computation (note commitment, nullifier, encryption, SHA-256,
  `Fr` byte representation, spend signature) is a field of an explicit
  environment `Ctx`.  The proving capability (`TxProver`) is a record of
  functions exactly as the spec describes the capability interface.
* Randomness (`rng`) is an explicit stream: a `List Nat` from which scalars
  are drawn head-first.
* A Rust panic (`expect`, `unwrap`, indexing, `unimplemented!`, arithmetic
  overflow in `uint`) is modelled as `none` in an `Option`-valued result.
-/

namespace Ztron

abbrev Bytes := List Nat

/-- 32-byte big-endian encoding of a natural number (`U256::to_big_endian`). -/
def beBytes32 (n : Nat) : Bytes :=
  (List.range 32).map fun i => n / 256 ^ (31 - i) % 256

/-- Big-endian interpretation of a byte string as a natural number. -/
def natFromBeBytes (bs : Bytes) : Nat :=
  bs.foldl (fun acc b => acc * 256 + b) 0

/-- 8-byte big-endian encoding of an `i64` (two's complement via `% 2^64`). -/
def i64BeBytes (v : Int) : Bytes :=
  (List.range 8).map fun i => (v % (2 ^ 64 : Nat)).toNat / 256 ^ (7 - i) % 256

/-- Right-pad a byte string with zeros to a multiple of 32 (ethabi padding). -/
def padRight32 (bs : Bytes) : Bytes :=
  bs ++ List.replicate ((32 - bs.length % 32) % 32) 0

/-- `bs[off .. off+len]`. -/
def slice (bs : Bytes) (off len : Nat) : Bytes :=
  (bs.drop off).take len

/-- Read the 32-byte big-endian word at byte offset `off`. -/
def readWord (bs : Bytes) (off : Nat) : Nat :=
  natFromBeBytes (slice bs off 32)

/-- `U256` multiplication; the `uint` crate panics on overflow. -/
def u256Mul (a b : Nat) : Option Nat :=
  if a * b < 2 ^ 256 then some (a * b) else none

/-- `U256::exp10`; panics (via overflowing `Mul`) when `10^n` exceeds 256 bits. -/
def U256.exp10 (n : Nat) : Option Nat :=
  if 10 ^ n < 2 ^ 256 then some (10 ^ n) else none

/-- `MAX_MONEY` of zcash_primitives: `21_000_000 * 100_000_000`. -/
def MAX_MONEY : Nat := 21000000 * 100000000

/-- `Amount::from_u64`: valid iff the value is at most `MAX_MONEY`. -/
def Amount.from_u64 (v : Nat) : Except Unit Int :=
  if v ≤ MAX_MONEY then .ok (v : Int) else .error ()

/-- Sapling note: value plus opaque address components and randomness. -/
structure Note where
  g_d : Nat
  pk_d : Nat
  value : Nat
  r : Nat

/-- Merkle authentication path: leaf position plus the (external) computation
taking the leaf commitment node to the path's root. -/
structure MerklePath where
  position : Nat
  rootFn : Nat → Nat

/-- Payment address; `g_d = none` models an address whose diversified base
point is invalid (`to.g_d(&JUBJUB)` returned `None`). -/
structure PaymentAddress where
  g_d : Option Nat
  pk_d : Nat

structure TransparentInput where
  amount : Nat
deriving DecidableEq

structure TransparentOutput where
  address : Bytes
  amount : Nat
deriving DecidableEq

structure SaplingSpend where
  expsk : Nat
  diversifier : Nat
  note : Note
  alpha : Nat
  merkle_path : MerklePath

structure SaplingOutput where
  ovk : Nat
  to_addr : PaymentAddress
  note : Note
  memo : Nat

structure SpendDescription where
  cv : Bytes
  anchor : Nat
  nullifier : Bytes
  rk : Bytes
  zkproof : Bytes
  spend_auth_sig : Option Bytes

structure OutputDescription where
  cv : Bytes
  cmu : Nat
  ephemeral_key : Bytes
  enc_ciphertext : Bytes
  out_ciphertext : Bytes
  zkproof : Bytes

inductive Error where
  | AnchorMismatch
  | BindingSig
  | ChangeIsNegative (amount : Int)
  | InvalidAddress
  | InvalidAmount
  | NoChangeAddress
  | SpendProof
  | InvalidTransaction (msg : String)
deriving DecidableEq

inductive TransactionType where
  | Mint
  | Transfer
  | Burn
deriving DecidableEq

/-- Result of `SaplingNoteEncryption::new` (external, randomness folded in):
ephemeral secret, serialized ephemeral public key, note ciphertext, and the
outgoing-ciphertext encryptor taking (serialized cv, cmu). -/
structure NoteEncryption where
  esk : Nat
  epkBytes : Bytes
  enc_ciphertext : Bytes
  encryptOutgoing : Bytes → Nat → Bytes

/-- Environment of external cryptographic computations (JUBJUB-based). -/
structure Ctx where
  noteCm : Note → Nat
  nf : Nat → Note → Nat → Bytes
  proofGenerationKey : Nat → Nat
  saplingNoteEncryption : Nat → Note → PaymentAddress → Nat → NoteEncryption
  sha256 : Bytes → Bytes
  frRepr : Nat → Bytes
  spendSig : Nat → Nat → Bytes → Bytes

/-- The proving capability, per the spec's capability interface: spend proof
(fallible), output proof (infallible), binding signature (fallible). -/
structure TxProver where
  spend_proof : Nat → Nat → Nat → Nat → Nat → Nat → MerklePath →
    Option (Bytes × Bytes × Bytes)
  output_proof : Nat → PaymentAddress → Nat → Nat → Bytes × Bytes
  binding_sig : Int → Bytes → Option Bytes

/-- The transaction builder state (`Builder<R>`); `rng` is the stream of
pending random scalars. -/
structure Builder where
  rng : List Nat
  contract_address : Bytes
  scaling_factor : Nat
  value_balance : Int
  anchor : Option Nat
  spends : List SaplingSpend
  outputs : List SaplingOutput
  transparent_input : Option TransparentInput
  transparent_output : Option TransparentOutput

/-- `Builder::new_with_rng`; `none` when `U256::exp10` overflows (panic). -/
def Builder.new_with_rng (contract_address : Bytes) (scaling_exponent : Nat)
    (rng : List Nat) : Option Builder :=
  (U256.exp10 scaling_exponent).map fun sf =>
    { rng, contract_address, scaling_factor := sf, value_balance := 0,
      anchor := none, spends := [], outputs := [],
      transparent_input := none, transparent_output := none }

/-- `Builder::add_sapling_spend`.  Returns the call's result together with the
builder state as left by the call (Rust mutates through `&mut self`, so a
failing path can leave partial mutation behind). -/
def Builder.add_sapling_spend (ctx : Ctx) (b : Builder) (expsk diversifier : Nat)
    (note : Note) (merkle_path : MerklePath) : Except Error Unit × Builder :=
  if 2 ≤ b.spends.length then
    (.error (.InvalidTransaction "too many sapling spends"), b)
  else
    let cm := ctx.noteCm note
    let checked : Except Error Builder :=
      match b.anchor with
      | some anchor =>
        if merkle_path.rootFn cm = anchor then .ok b else .error .AnchorMismatch
      | none => .ok { b with anchor := some (merkle_path.rootFn cm) }
    match checked with
    | .error e => (.error e, b)
    | .ok b1 =>
      let alpha := b1.rng.headD 0
      let b2 := { b1 with rng := b1.rng.tail }
      match Amount.from_u64 note.value with
      | .error _ => (.error .InvalidAmount, b2)
      | .ok amt =>
        (.ok (),
          { b2 with value_balance := b2.value_balance + amt,
                    spends := b2.spends ++
                      [{ expsk, diversifier, note, alpha, merkle_path }] })

/-- `SaplingOutput::new`; also returns the rng state after the call. -/
def SaplingOutput.new (rng : List Nat) (ovk : Nat) (to_addr : PaymentAddress)
    (value : Int) (memo : Option Nat) : Except Error SaplingOutput × List Nat :=
  match to_addr.g_d with
  | none => (.error .InvalidAddress, rng)
  | some gd =>
    if value < 0 then (.error .InvalidAmount, rng)
    else
      let rcm := rng.headD 0
      (.ok { ovk, to_addr,
             note := { g_d := gd, pk_d := to_addr.pk_d, value := value.toNat, r := rcm },
             memo := memo.getD 0 },
       rng.tail)

/-- `Builder::add_sapling_output`. -/
def Builder.add_sapling_output (b : Builder) (ovk : Nat) (to_addr : PaymentAddress)
    (value : Int) (memo : Option Nat) : Except Error Unit × Builder :=
  if 2 ≤ b.outputs.length then
    (.error (.InvalidTransaction "too many sapling output"), b)
  else
    match SaplingOutput.new b.rng ovk to_addr value memo with
    | (.error e, rng1) => (.error e, { b with rng := rng1 })
    | (.ok output, rng1) =>
      (.ok (),
        { b with rng := rng1,
                 value_balance := b.value_balance - value,
                 outputs := b.outputs ++ [output] })

/-- `Builder::add_transparent_input`. -/
def Builder.add_transparent_input (b : Builder) (value : Nat) :
    Except Error Unit × Builder :=
  if b.transparent_input.isSome then
    (.error (.InvalidTransaction "mint can only have one transparent input"), b)
  else
    (.ok (), { b with transparent_input := some { amount := value } })

/-- `Builder::add_transparent_output`. -/
def Builder.add_transparent_output (b : Builder) (to_addr : Bytes) (value : Nat) :
    Except Error Unit × Builder :=
  if b.transparent_output.isSome then
    (.error (.InvalidTransaction "burn can only have one transparent output"), b)
  else
    (.ok (), { b with transparent_output := some { address := to_addr, amount := value } })

/-- `Builder::transaction_type`: the classifier. -/
def Builder.transaction_type (b : Builder) : Except Error TransactionType :=
  if b.transparent_input.isSome then
    if b.outputs.length = 1 ∧ b.spends.length = 0 ∧ b.transparent_output.isNone then
      .ok .Mint
    else
      .error (.InvalidTransaction "mint must be a transaction to 1 shielded output")
  else if b.transparent_output.isSome then
    if b.spends.length = 1 ∧ b.outputs.length ≤ 1 ∧ b.transparent_input.isNone then
      .ok .Burn
    else
      .error (.InvalidTransaction
        "burn must be a transaction from 1 shielded output, to max 1 shielded output")
  else
    if 1 ≤ b.spends.length ∧ 1 ≤ b.outputs.length then
      .ok .Transfer
    else
      .error (.InvalidTransaction "invalid mint, burn, or transfer")

/-- `SaplingSpend::generate_spend_proof`.  The source unwraps the prover's
result with `.expect("proving should not fail")`, so a proving failure is a
panic: `none`. -/
def SaplingSpend.generate_spend_proof (ctx : Ctx) (prover : TxProver)
    (s : SaplingSpend) : Option SpendDescription :=
  let nf := ctx.nf s.expsk s.note s.merkle_path.position
  let pgk := ctx.proofGenerationKey s.expsk
  let anchor := s.merkle_path.rootFn (ctx.noteCm s.note)
  match prover.spend_proof pgk s.diversifier s.note.r s.alpha s.note.value anchor
      s.merkle_path with
  | none => none
  | some (zkproof, cv, rk) =>
    some { cv, anchor, nullifier := nf, rk, zkproof, spend_auth_sig := none }

/-- `SaplingOutput::generate_output_proof`. -/
def SaplingOutput.generate_output_proof (ctx : Ctx) (prover : TxProver)
    (o : SaplingOutput) : OutputDescription :=
  let cmu := ctx.noteCm o.note
  let enc := ctx.saplingNoteEncryption o.ovk o.note o.to_addr o.memo
  let c_enc := enc.enc_ciphertext
  let epk := enc.epkBytes
  let pr := prover.output_proof enc.esk o.to_addr o.note.r o.note.value
  let c_out := enc.encryptOutgoing pr.2 (ctx.noteCm o.note)
  { cv := pr.2, cmu, ephemeral_key := epk, enc_ciphertext := c_enc,
    out_ciphertext := c_out, zkproof := pr.1 }

/-- Byte string of one per-spend `bytes32[10]` tuple:
nullifier ++ anchor ++ cv ++ rk ++ proof. -/
def spendTupleBytes (ctx : Ctx) (s : SpendDescription) : Bytes :=
  s.nullifier ++ ctx.frRepr s.anchor ++ s.cv ++ s.rk ++ s.zkproof

/-- Byte string of one per-output `bytes32[9]` tuple:
cmu ++ cv ++ ephemeral key ++ proof. -/
def outputTupleBytes (ctx : Ctx) (o : OutputDescription) : Bytes :=
  ctx.frRepr o.cmu ++ o.cv ++ o.ephemeral_key ++ o.zkproof

/-- Byte string of one per-output ciphertext tuple before ethabi padding:
enc_ciphertext ++ out_ciphertext (580 + 80 bytes; ethabi pads with 12 zeros). -/
def cTupleBytes (o : OutputDescription) : Bytes :=
  o.enc_ciphertext ++ o.out_ciphertext

/-- ethabi encoding of a `Token::Array` of `Token::FixedBytes` elements:
a 32-byte length word followed by each element padded to a 32-byte multiple. -/
def encTokenArray (elems : List Bytes) : Bytes :=
  beBytes32 elems.length ++ (elems.map padRight32).flatten

/-- Collect the spend-authorization signatures; the source unwraps each
`spend_auth_sig` (`.unwrap()`), so a missing signature is a panic: `none`. -/
def sigsOf : List SpendDescription → Option (List Bytes)
  | [] => some []
  | s :: rest =>
    match s.spend_auth_sig, sigsOf rest with
    | some sg, some sigs => some (sg :: sigs)
    | _, _ => none

/-- `abi_encode_transfer`: `ethabi::encode` of
`[Array input, Array spendAuthoritySignature, Array output,
  FixedBytes bindingSignature, Array c]`.
Heads of the five parameters: three offset words, the binding signature
inline (static `FixedBytes`), one offset word; tails are the four arrays in
parameter order.  Offsets count from the start of the payload. -/
def abi_encode_transfer (ctx : Ctx) (spends : List SpendDescription)
    (outputs : List OutputDescription) (binding_sig : Bytes) : Option Bytes :=
  match sigsOf spends with
  | none => none
  | some sigs =>
    let t1 := encTokenArray (spends.map (spendTupleBytes ctx))
    let t2 := encTokenArray sigs
    let t3 := encTokenArray (outputs.map (outputTupleBytes ctx))
    let bsEnc := padRight32 binding_sig
    let t5 := encTokenArray (outputs.map cTupleBytes)
    let headLen := 32 + 32 + 32 + bsEnc.length + 32
    some (beBytes32 headLen ++
      beBytes32 (headLen + t1.length) ++
      beBytes32 (headLen + t1.length + t2.length) ++
      bsEnc ++
      beBytes32 (headLen + t1.length + t2.length + t3.length) ++
      t1 ++ t2 ++ t3 ++ t5)

/-- `Builder::build_mint`.  `none` models the panics: missing transparent
input (`unwrap`), `U256` multiplication overflow, missing output (indexing). -/
def Builder.build_mint (ctx : Ctx) (prover : TxProver) (b : Builder) :
    Option (Except Error Bytes) :=
  if 0 < b.value_balance then some (.error .InvalidAmount) else
  match b.transparent_input with
  | none => none
  | some ti =>
    let shielded_output_value : Int := -b.value_balance
    match u256Mul shielded_output_value.toNat b.scaling_factor with
    | none => none
    | some scaled =>
      if scaled ≠ ti.amount then
        some (.error (.InvalidTransaction "input & output amount mismatch"))
      else
        match b.outputs with
        | [] => none
        | o :: _ =>
          let output_desc := o.generate_output_proof ctx prover
          let transaction_data :=
            b.contract_address ++
            i64BeBytes shielded_output_value ++
            ctx.frRepr output_desc.cmu ++
            output_desc.cv ++
            output_desc.ephemeral_key ++
            output_desc.zkproof ++
            output_desc.enc_ciphertext ++
            output_desc.out_ciphertext ++
            List.replicate 12 0
          let sighash := ctx.sha256 transaction_data
          match prover.binding_sig b.value_balance sighash with
          | none => some (.error .BindingSig)
          | some bsig =>
            some (.ok (
              beBytes32 (10 ^ 18) ++
              ctx.frRepr output_desc.cmu ++
              output_desc.cv ++
              output_desc.ephemeral_key ++
              output_desc.zkproof ++
              bsig ++
              output_desc.enc_ciphertext ++
              output_desc.out_ciphertext ++
              List.replicate 12 0))

/-- Generate all spend proofs in order; `none` as soon as one generation
panics (`generate_spend_proof`'s `expect`). -/
def spendProofsOf (ctx : Ctx) (prover : TxProver) :
    List SaplingSpend → Option (List SpendDescription)
  | [] => some []
  | s :: rest =>
    match s.generate_spend_proof ctx prover, spendProofsOf ctx prover rest with
    | some d, some ds => some (d :: ds)
    | _, _ => none

/-- `Builder::build_transfer`.  `none` models the `expect` panic inside
`generate_spend_proof` and the `unwrap` panics inside `abi_encode_transfer`. -/
def Builder.build_transfer (ctx : Ctx) (prover : TxProver) (b : Builder) :
    Option (Except Error Bytes) :=
  if b.value_balance ≠ 0 then some (.error .InvalidAmount) else
  match spendProofsOf ctx prover b.spends with
  | none => none
  | some spend_descs =>
    let output_descs := b.outputs.map (SaplingOutput.generate_output_proof ctx prover)
    let transaction_data :=
      b.contract_address ++
      (spend_descs.map (spendTupleBytes ctx)).flatten ++
      (output_descs.map (outputTupleBytes ctx)).flatten ++
      (output_descs.map (fun o => cTupleBytes o ++ List.replicate 12 0)).flatten
    let sighash := ctx.sha256 transaction_data
    let signed_descs := (spend_descs.zip b.spends).map fun p =>
      { p.1 with spend_auth_sig := some (ctx.spendSig p.2.expsk p.2.alpha sighash) }
    match prover.binding_sig b.value_balance sighash with
    | none => some (.error .BindingSig)
    | some bsig =>
      match abi_encode_transfer ctx signed_descs output_descs bsig with
      | none => none
      | some payload => some (.ok payload)

/-- `Builder::build_burn`.  After both balance checks the source hits
`unimplemented!()`, a panic: `none`.  `none` also models the `unwrap` on the
transparent output and `U256` multiplication overflow. -/
def Builder.build_burn (b : Builder) : Option (Except Error Bytes) :=
  if b.value_balance < 0 then some (.error .InvalidAmount) else
  match b.transparent_output with
  | none => none
  | some tout =>
    match u256Mul b.value_balance.toNat b.scaling_factor with
    | none => none
    | some scaled =>
      if scaled ≠ tout.amount then
        some (.error (.InvalidTransaction "input & output amount mismatch"))
      else
        none

/-- `Builder::build`: classify, then dispatch to the kind's build routine. -/
def Builder.build (ctx : Ctx) (prover : TxProver) (b : Builder) :
    Option (Except Error (TransactionType × Bytes)) :=
  match b.transaction_type with
  | .error e => some (.error e)
  | .ok t =>
    let r := match t with
      | .Mint => b.build_mint ctx prover
      | .Transfer => b.build_transfer ctx prover
      | .Burn => b.build_burn
    match r with
    | none => none
    | some (.error e) => some (.error e)
    | some (.ok payload) => some (.ok (t, payload))

deriving instance DecidableEq for Except

/-- The transaction classifier as the spec words it (spec-side definition for
the refinement claim on the classifier): transparent input present → Mint
exactly for (one shielded output, zero shielded spends, no transparent
output); else transparent output present → Burn exactly for (one shielded
spend, at most one shielded output, no transparent input); else Transfer
exactly for (at least one spend and at least one output).  `none` is a
structural error. -/
def classifySpec (b : Builder) : Option TransactionType :=
  if b.transparent_input ≠ none then
    if b.outputs.length = 1 ∧ b.spends.length = 0 ∧ b.transparent_output = none then
      some .Mint
    else none
  else if b.transparent_output ≠ none then
    if b.spends.length = 1 ∧ b.outputs.length ≤ 1 ∧ b.transparent_input = none then
      some .Burn
    else none
  else
    if 1 ≤ b.spends.length ∧ 1 ≤ b.outputs.length then some .Transfer
    else none

/-! Decoders of the documented Transfer payload layout (spec-side): five
parallel arrays located through the offset words of the ABI head; per-spend
`bytes32[10]` tuples (nullifier, anchor, value commitment, randomized key,
proof), per-output `bytes32[9]` tuples (commitment, value commitment,
ephemeral key, proof). -/

/-- Byte offset of the per-spend tuple array (first head word). -/
def spendArrayOff (p : Bytes) : Nat := readWord p 0

/-- Number of per-spend tuples (length word of the first array). -/
def decodeSpendCount (p : Bytes) : Nat := readWord p (spendArrayOff p)

def decodeNullifier (p : Bytes) (i : Nat) : Bytes :=
  slice p (spendArrayOff p + 32 + 320 * i) 32

def decodeSpendAnchor (p : Bytes) (i : Nat) : Bytes :=
  slice p (spendArrayOff p + 32 + 320 * i + 32) 32

def decodeSpendCv (p : Bytes) (i : Nat) : Bytes :=
  slice p (spendArrayOff p + 32 + 320 * i + 64) 32

def decodeSpendRk (p : Bytes) (i : Nat) : Bytes :=
  slice p (spendArrayOff p + 32 + 320 * i + 96) 32

def decodeSpendProof (p : Bytes) (i : Nat) : Bytes :=
  slice p (spendArrayOff p + 32 + 320 * i + 128) 192

/-- Byte offset of the per-output tuple array (third head word). -/
def outputArrayOff (p : Bytes) : Nat := readWord p 64

/-- Number of per-output tuples (length word of the third array). -/
def decodeOutputCount (p : Bytes) : Nat := readWord p (outputArrayOff p)

def decodeOutputCmu (p : Bytes) (i : Nat) : Bytes :=
  slice p (outputArrayOff p + 32 + 288 * i) 32

def decodeOutputCv (p : Bytes) (i : Nat) : Bytes :=
  slice p (outputArrayOff p + 32 + 288 * i + 32) 32

def decodeOutputEpk (p : Bytes) (i : Nat) : Bytes :=
  slice p (outputArrayOff p + 32 + 288 * i + 64) 32

def decodeOutputProof (p : Bytes) (i : Nat) : Bytes :=
  slice p (outputArrayOff p + 32 + 288 * i + 96) 192

/-- One add-leg operation on the builder. -/
inductive AddOp where
  | spend (expsk diversifier : Nat) (note : Note) (merkle_path : MerklePath)
  | output (ovk : Nat) (to_addr : PaymentAddress) (value : Int) (memo : Option Nat)
  | tin (value : Nat)
  | tout (to_addr : Bytes) (value : Nat)

def applyOp (ctx : Ctx) (b : Builder) : AddOp → Except Error Unit × Builder
  | .spend e d n p => b.add_sapling_spend ctx e d n p
  | .output o t v m => b.add_sapling_output o t v m
  | .tin v => b.add_transparent_input v
  | .tout t v => b.add_transparent_output t v

/-- Run a sequence of add operations; `none` as soon as one fails. -/
def runOps (ctx : Ctx) (b : Builder) : List AddOp → Option Builder
  | [] => some b
  | op :: ops =>
    match applyOp ctx b op with
    | (.ok _, b1) => runOps ctx b1 ops
    | (.error _, _) => none

/-- Sum of the note values of the shielded-spend operations in a sequence. -/
def spendValueSum (ops : List AddOp) : Int :=
  (ops.map fun op => match op with | .spend _ _ n _ => (n.value : Int) | _ => 0).sum

/-- Sum of the values of the shielded-output operations in a sequence. -/
def outputValueSum (ops : List AddOp) : Int :=
  (ops.map fun op => match op with | .output _ _ v _ => v | _ => 0).sum

/-- Net effect of one add operation on the value balance. -/
def opDelta : AddOp → Int
  | .spend _ _ n _ => (n.value : Int)
  | .output _ _ v _ => -v
  | .tin _ => 0
  | .tout _ _ => 0

/-! Concrete instantiations used by the closed counterexample and witness
theorems: a trivial cryptographic environment and prover (the builder treats
all of them as opaque), and small reachable builder states. -/

def demoAddr : Bytes := List.replicate 21 65

def demoPayAddr : PaymentAddress := { g_d := some 1, pk_d := 2 }

def demoPath7 : MerklePath := { position := 0, rootFn := fun _ => 7 }

def demoPath9 : MerklePath := { position := 1, rootFn := fun _ => 9 }

def demoNote (v : Nat) : Note := { g_d := 1, pk_d := 2, value := v, r := 3 }

def demoCtx : Ctx :=
  { noteCm := fun n => n.value,
    nf := fun _ _ _ => List.replicate 32 1,
    proofGenerationKey := fun e => e,
    saplingNoteEncryption := fun _ _ _ _ =>
      { esk := 0, epkBytes := List.replicate 32 2,
        enc_ciphertext := List.replicate 580 3,
        encryptOutgoing := fun _ _ => List.replicate 80 4 },
    sha256 := fun _ => List.replicate 32 5,
    frRepr := beBytes32,
    spendSig := fun _ _ _ => List.replicate 64 6 }

def demoProver : TxProver :=
  { spend_proof := fun _ _ _ _ _ _ _ =>
      some (List.replicate 192 7, List.replicate 32 8, List.replicate 32 9),
    output_proof := fun _ _ _ _ => (List.replicate 192 10, List.replicate 32 11),
    binding_sig := fun _ _ => some (List.replicate 64 12) }

/-- A prover whose spend-proof generation always fails. -/
def failProver : TxProver :=
  { demoProver with spend_proof := fun _ _ _ _ _ _ _ => none }

/-- A fresh builder with scaling exponent 18 (`Builder::new_with_rng`). -/
def fresh18 : Builder :=
  { rng := [1, 2, 3, 4], contract_address := demoAddr, scaling_factor := 10 ^ 18,
    value_balance := 0, anchor := none, spends := [], outputs := [],
    transparent_input := none, transparent_output := none }

/-- A fresh builder with scaling exponent 77 (the largest exponent for which
`U256::exp10` does not overflow). -/
def fresh77 : Builder := { fresh18 with scaling_factor := 10 ^ 77 }

/-- Mint-shaped builder: transparent input `2 * 10^18`, one shielded output of
value 2, scaling exponent 18. -/
def demoMintB : Builder :=
  ((fresh18.add_transparent_input (2 * 10 ^ 18)).2.add_sapling_output
    0 demoPayAddr 2 none).2

/-- The payload the Mint build of `demoMintB` produces. -/
def demoMintPayload : Bytes :=
  match Builder.build demoCtx demoProver demoMintB with
  | some (.ok (_, p)) => p
  | _ => []

/-- Balanced Transfer-shaped builder: one spend of value 5, one output of
value 5. -/
def demoXferB : Builder :=
  ((fresh18.add_sapling_spend demoCtx 10 0 (demoNote 5) demoPath7).2.add_sapling_output
    0 demoPayAddr 5 none).2

/-- Unbalanced Transfer-shaped builder: one spend of value 5, one output of
value 3. -/
def demoXferBadB : Builder :=
  ((fresh18.add_sapling_spend demoCtx 10 0 (demoNote 5) demoPath7).2.add_sapling_output
    0 demoPayAddr 3 none).2

/-- Builder holding one shielded spend (anchor 7). -/
def demoOneSpendB : Builder :=
  (fresh18.add_sapling_spend demoCtx 10 0 (demoNote 1) demoPath7).2

/-- Builder holding two shielded spends (both rooted at 7). -/
def demoTwoSpendB : Builder :=
  (demoOneSpendB.add_sapling_spend demoCtx 11 0 (demoNote 1) demoPath7).2

/-- Mint-shaped builder whose scaled output value mismatches the transparent
input without any overflow: input 5, output 2, scaling factor `10^18`. -/
def demoMintBadB : Builder :=
  ((fresh18.add_transparent_input 5).2.add_sapling_output 0 demoPayAddr 2 none).2

/-- Mint-shaped builder whose scaled output value overflows 256 bits:
scaling factor `10^77`, output value `MAX_MONEY`. -/
def demoMintOvfB : Builder :=
  ((fresh77.add_transparent_input 5).2.add_sapling_output
    0 demoPayAddr 2100000000000000 none).2

/-- Burn-shaped builder with a scaled-amount mismatch and no overflow:
one spend of value 3, transparent output 5, scaling factor `10^18`. -/
def demoBurnBadB : Builder :=
  ((fresh18.add_sapling_spend demoCtx 10 0 (demoNote 3) demoPath7).2.add_transparent_output
    demoAddr 5).2

/-- Burn-shaped builder whose scaled value balance overflows 256 bits:
one spend of value `MAX_MONEY`, scaling factor `10^77`. -/
def demoBurnOvfB : Builder :=
  ((fresh77.add_sapling_spend demoCtx 10 0 (demoNote 2100000000000000) demoPath7).2.add_transparent_output
    demoAddr 5).2

/-- A note whose value exceeds `MAX_MONEY` (not representable as `Amount`). -/
def bigNote : Note := demoNote 2100000000000001

/-- A concrete signed spend descriptor with distinct field contents. -/
def demoSpendDesc : SpendDescription :=
  { cv := List.replicate 32 21, anchor := 3, nullifier := List.replicate 32 22,
    rk := List.replicate 32 23, zkproof := List.replicate 192 24,
    spend_auth_sig := some (List.replicate 64 25) }

/-- A concrete output descriptor with distinct field contents. -/
def demoOutputDesc : OutputDescription :=
  { cv := List.replicate 32 26, cmu := 4, ephemeral_key := List.replicate 32 27,
    enc_ciphertext := List.replicate 580 28, out_ciphertext := List.replicate 80 29,
    zkproof := List.replicate 192 30 }

/-- The five ABI head slots of a Transfer payload: three offset words, the
binding signature inline, one offset word (offsets written out for spend
count `nS` and output count `nO`). -/
def transferHead (nS nO : Nat) (bsig : Bytes) : Bytes :=
  beBytes32 192 ++
    (beBytes32 (224 + 320 * nS) ++
      (beBytes32 (256 + 384 * nS) ++
        (bsig ++ beBytes32 (288 + 384 * nS + 288 * nO))))

/-- Explicit shape of the Transfer payload `abi_encode_transfer` produces:
head, then the four length-prefixed arrays. -/
def transferPayload (ctx : Ctx) (spends : List SpendDescription)
    (outputs : List OutputDescription) (bsig : Bytes) (sigs : List Bytes) : Bytes :=
  transferHead spends.length outputs.length bsig ++
    ((beBytes32 spends.length ++ (spends.map (spendTupleBytes ctx)).flatten) ++
      ((beBytes32 spends.length ++ sigs.flatten) ++
        ((beBytes32 outputs.length ++ (outputs.map (outputTupleBytes ctx)).flatten) ++
          encTokenArray (outputs.map cTupleBytes))))

/-! Helper lemmas: big-endian words, slices, and fixed-size block arrays. -/

theorem get_map_eq {α β : Type} (f : α → β) (l : List α) (i : Nat)
    (h : i < l.length) (h2 : i < (l.map f).length) :
    (l.map f).get ⟨i, h2⟩ = f (l.get ⟨i, h⟩) := by
  simp

theorem foldl_be_digits (k : Nat) (a n : Nat) :
    ((List.range k).map fun i => n / 256 ^ (k - 1 - i) % 256).foldl
      (fun acc b => acc * 256 + b) a = a * 256 ^ k + n % 256 ^ k := by
  induction k generalizing a with
  | zero => simp [Nat.mod_one]
  | succ k ih =>
    rw [List.range_succ_eq_map]
    simp only [List.map_cons, List.map_map, List.foldl_cons]
    have hcomp : ((fun i => n / 256 ^ (k + 1 - 1 - i) % 256) ∘ Nat.succ)
        = fun i => n / 256 ^ (k - 1 - i) % 256 := by
      funext i
      simp only [Function.comp]
      have h1 : k + 1 - 1 - Nat.succ i = k - 1 - i := by omega
      rw [h1]
    rw [hcomp, ih]
    have h2 : k + 1 - 1 - 0 = k := by omega
    rw [h2]
    have h3 : n % 256 ^ (k + 1) = n % 256 ^ k + 256 ^ k * (n / 256 ^ k % 256) :=
      Nat.mod_pow_succ
    rw [h3, pow_succ]
    ring

theorem natFromBeBytes_beBytes32 (n : Nat) (h : n < 2 ^ 256) :
    natFromBeBytes (beBytes32 n) = n := by
  have h32 : beBytes32 n = (List.range 32).map fun i => n / 256 ^ (32 - 1 - i) % 256 := by
    unfold beBytes32
    apply List.map_congr_left
    intro i _
    have he : 31 - i = 32 - 1 - i := by omega
    rw [he]
  rw [natFromBeBytes, h32, foldl_be_digits]
  have hp : (256 : Nat) ^ 32 = 2 ^ 256 := by norm_num
  rw [Nat.zero_mul, Nat.zero_add, hp]
  exact Nat.mod_eq_of_lt h

theorem beBytes32_length (n : Nat) : (beBytes32 n).length = 32 := by
  simp [beBytes32]

theorem slice_append_left (a b : Bytes) (off len : Nat) (h : off + len ≤ a.length) :
    slice (a ++ b) off len = slice a off len := by
  unfold slice
  rw [List.drop_append_of_le_length (by omega)]
  rw [List.take_append_of_le_length (by simp; omega)]

theorem slice_append_right (a b : Bytes) (k len : Nat) :
    slice (a ++ b) (a.length + k) len = slice b k len := by
  unfold slice
  rw [List.drop_append]

theorem slice_append_off (a b : Bytes) (off k len : Nat) (hoff : off = a.length + k) :
    slice (a ++ b) off len = slice b k len := by
  subst hoff
  exact slice_append_right a b k len

theorem slice_self (a : Bytes) (len : Nat) (h : a.length ≤ len) :
    slice a 0 len = a := by
  unfold slice
  rw [List.drop_zero]
  exact List.take_of_length_le h

theorem slice_front (a b : Bytes) (len : Nat) (h : a.length = len) :
    slice (a ++ b) 0 len = a := by
  rw [slice_append_left a b 0 len (by omega)]
  exact slice_self a len (by omega)

theorem flatten_length_const (L : Nat) (blocks : List Bytes)
    (h : ∀ bl ∈ blocks, bl.length = L) :
    blocks.flatten.length = L * blocks.length := by
  induction blocks with
  | nil => simp
  | cons c rest ih =>
    have hc : c.length = L := h c (by simp)
    have hr := ih fun bl hbl => h bl (by simp [hbl])
    simp only [List.flatten_cons, List.length_append, List.length_cons, hc, hr]
    ring

theorem flatten_slice (L : Nat) (blocks : List Bytes)
    (h : ∀ bl ∈ blocks, bl.length = L) (i off len : Nat)
    (hi : i < blocks.length) (hol : off + len ≤ L) :
    slice blocks.flatten (L * i + off) len = slice (blocks.get ⟨i, hi⟩) off len := by
  induction blocks generalizing i with
  | nil => simp at hi
  | cons c rest ih =>
    have hc : c.length = L := h c (by simp)
    cases i with
    | zero =>
      simp only [List.flatten_cons, List.get]
      rw [Nat.mul_zero, Nat.zero_add]
      exact slice_append_left c rest.flatten off len (by omega)
    | succ i =>
      simp only [List.flatten_cons, List.get]
      have heq : L * (i + 1) + off = c.length + (L * i + off) := by
        rw [hc]; ring
      rw [heq, slice_append_right]
      exact ih (fun bl hbl => h bl (by simp [hbl])) i (by simpa using hi)

theorem flatten_slice_with_rest (L : Nat) (blocks : List Bytes) (rest : Bytes)
    (h : ∀ bl ∈ blocks, bl.length = L) (i off len : Nat)
    (hi : i < blocks.length) (hol : off + len ≤ L) :
    slice (blocks.flatten ++ rest) (L * i + off) len
      = slice (blocks.get ⟨i, hi⟩) off len := by
  have hlen := flatten_length_const L blocks h
  have hle : L * i + off + len ≤ blocks.flatten.length := by
    have h1 : L * i + L ≤ L * blocks.length := by
      have := Nat.mul_le_mul_left L hi
      calc L * i + L = L * (i + 1) := by ring
      _ ≤ L * blocks.length := Nat.mul_le_mul_left L hi
    omega
  rw [slice_append_left _ _ _ _ hle]
  exact flatten_slice L blocks h i off len hi hol

theorem padRight32_of_mod (bs : Bytes) (h : bs.length % 32 = 0) :
    padRight32 bs = bs := by
  unfold padRight32
  rw [h]
  simp

theorem map_padRight32_of_const (L : Nat) (elems : List Bytes)
    (h : ∀ e ∈ elems, e.length = L) (hL : L % 32 = 0) :
    elems.map padRight32 = elems := by
  have hall : ∀ e ∈ elems, padRight32 e = e := fun e he =>
    padRight32_of_mod e (by rw [h e he]; exact hL)
  calc elems.map padRight32 = elems.map id := List.map_congr_left hall
  _ = elems := List.map_id elems

theorem sigsOf_some (spends : List SpendDescription)
    (h : ∀ s ∈ spends, ∃ sg, s.spend_auth_sig = some sg ∧ sg.length = 64) :
    ∃ sigs, sigsOf spends = some sigs ∧ sigs.length = spends.length ∧
      ∀ sg ∈ sigs, sg.length = 64 := by
  induction spends with
  | nil => exact ⟨[], rfl, rfl, by simp⟩
  | cons s rest ih =>
    obtain ⟨sg, hsg, hlen⟩ := h s (by simp)
    obtain ⟨sigs, hm, hl, hall⟩ := ih fun x hx => h x (by simp [hx])
    refine ⟨sg :: sigs, ?_, by simp [hl], ?_⟩
    · unfold sigsOf
      rw [hsg, hm]
    · intro x hx
      rcases List.mem_cons.mp hx with h1 | h2
      · rw [h1]; exact hlen
      · exact hall x h2

/-! Dispatch lemmas: `Builder.build` in terms of the per-kind routines. -/

theorem build_dispatch_mint (ctx : Ctx) (prover : TxProver) (b : Builder)
    (h : b.transaction_type = .ok .Mint) :
    b.build ctx prover = (b.build_mint ctx prover).bind fun r =>
      match r with
      | .error e => some (.error e)
      | .ok p => some (.ok (.Mint, p)) := by
  unfold Builder.build
  rw [h]
  cases hb : b.build_mint ctx prover with
  | none => rfl
  | some r => cases r <;> rfl

theorem build_dispatch_transfer (ctx : Ctx) (prover : TxProver) (b : Builder)
    (h : b.transaction_type = .ok .Transfer) :
    b.build ctx prover = (b.build_transfer ctx prover).bind fun r =>
      match r with
      | .error e => some (.error e)
      | .ok p => some (.ok (.Transfer, p)) := by
  unfold Builder.build
  rw [h]
  cases hb : b.build_transfer ctx prover with
  | none => rfl
  | some r => cases r <;> rfl

theorem build_dispatch_burn (ctx : Ctx) (prover : TxProver) (b : Builder)
    (h : b.transaction_type = .ok .Burn) :
    b.build ctx prover = b.build_burn.bind fun r =>
      match r with
      | .error e => some (.error e)
      | .ok p => some (.ok (.Burn, p)) := by
  unfold Builder.build
  rw [h]
  cases hb : b.build_burn with
  | none => rfl
  | some r => cases r <;> rfl

/-- C3: for every builder state, the classifier decides the kind by the fixed
precedence the spec states — transparent input present: Mint exactly for one
shielded output, zero spends, no transparent output; else transparent output
present: Burn exactly for one spend, at most one output, no transparent
input; else Transfer exactly for at least one spend and one output — and any
other shape is a structural (`InvalidTransaction`) error. -/
theorem C3_classifier_follows_spec (b : Builder) :
    (Builder.transaction_type b).toOption = classifySpec b ∧
    (classifySpec b = none →
      ∃ s, Builder.transaction_type b = .error (.InvalidTransaction s)) := by
  obtain ⟨rng, ca, sf, vb, an, sp, outs, ti, to2⟩ := b
  cases ti <;> cases to2 <;>
    constructor <;>
    simp [Builder.transaction_type, classifySpec, Except.toOption] <;>
    split_ifs <;>
    first
      | (simp_all
         exact List.ne_nil_of_length_pos (by omega))
      | simp_all

/-- Witness for C3 at a concrete structurally-invalid builder (no legs):
the classifier rejects it with a structural error. -/
theorem C3_witness :
    (Builder.transaction_type fresh18).toOption = classifySpec fresh18 ∧
    ∃ s, Builder.transaction_type fresh18 = .error (.InvalidTransaction s) :=
  ⟨(C3_classifier_follows_spec fresh18).1,
   (C3_classifier_follows_spec fresh18).2 (by decide)⟩

/-- C4 (amended): with exactly one shielded spend held (its anchor fixed),
adding a spend whose authentication path roots to a different merkle root
returns an anchor-mismatch error and leaves the builder — in particular its
spend list — unchanged.  (With two spends already held, the structural
too-many-spends error is returned instead; see the counterexample.) -/
theorem C4_anchor_mismatch_second_spend (ctx : Ctx) (b : Builder)
    (expsk diversifier : Nat) (note : Note) (merkle_path : MerklePath) (a : Nat)
    (h1 : b.spends.length = 1) (h2 : b.anchor = some a)
    (h3 : merkle_path.rootFn (ctx.noteCm note) ≠ a) :
    b.add_sapling_spend ctx expsk diversifier note merkle_path
      = (.error .AnchorMismatch, b) := by
  unfold Builder.add_sapling_spend
  rw [if_neg (by omega), h2]
  simp only [if_neg h3]

/-- Witness for C4: a builder holding one spend anchored at 7 rejects a spend
rooted at 9 with `AnchorMismatch`, unchanged. -/
theorem C4_witness :
    demoOneSpendB.add_sapling_spend demoCtx 12 0 (demoNote 1) demoPath9
      = (.error .AnchorMismatch, demoOneSpendB) :=
  C4_anchor_mismatch_second_spend demoCtx demoOneSpendB 12 0 (demoNote 1)
    demoPath9 7 rfl rfl (by decide)

/-- Counterexample to C4 as stated: a builder that "already holds at least one
shielded spend" may hold two; the third add with a differently-rooted path
then fails with the structural too-many-spends error, not `AnchorMismatch`. -/
theorem C4_counterexample :
    1 ≤ demoTwoSpendB.spends.length ∧
    demoTwoSpendB.anchor = some 7 ∧
    demoPath9.rootFn (demoCtx.noteCm (demoNote 1)) ≠ 7 ∧
    (demoTwoSpendB.add_sapling_spend demoCtx 12 0 (demoNote 1) demoPath9).1
      = .error (.InvalidTransaction "too many sapling spends") ∧
    (demoTwoSpendB.add_sapling_spend demoCtx 12 0 (demoNote 1) demoPath9).1
      ≠ .error .AnchorMismatch := by
  exact ⟨by decide, rfl, by decide, rfl, by decide⟩

/-- C5: a builder classified as Transfer whose value balance is nonzero fails
with `InvalidAmount` for every prover and environment — in particular before
(and independently of) any proof generation — so every successful Transfer
build has value balance exactly zero. -/
theorem C5_transfer_balance_check (ctx : Ctx) (prover : TxProver) (b : Builder)
    (ht : b.transaction_type = .ok .Transfer) (hvb : b.value_balance ≠ 0) :
    b.build ctx prover = some (.error .InvalidAmount) := by
  rw [build_dispatch_transfer ctx prover b ht]
  unfold Builder.build_transfer
  rw [if_pos hvb]
  rfl

/-- Witness for C5: the unbalanced demo Transfer builder (spend 5, output 3)
fails with `InvalidAmount`. -/
theorem C5_witness :
    Builder.build demoCtx demoProver demoXferBadB = some (.error .InvalidAmount) :=
  C5_transfer_balance_check demoCtx demoProver demoXferBadB (by decide) (by decide)

/-- A successful add operation changes the value balance by exactly its
`opDelta`: spend adds increase it by the note value, output adds decrease it
by the output value, transparent adds leave it unchanged. -/
theorem applyOp_ok_balance (ctx : Ctx) (b : Builder) (op : AddOp) (u : Unit)
    (b1 : Builder) (h : applyOp ctx b op = (.ok u, b1)) :
    b1.value_balance = b.value_balance + opDelta op := by
  cases op with
  | spend e d n p =>
    simp only [applyOp, Builder.add_sapling_spend, Amount.from_u64, opDelta] at h ⊢
    split at h
    · exact absurd h (by simp)
    · split at h
      · exact absurd h (by simp)
      · rename_i b2 heqc
        split at h
        · exact absurd h (by simp)
        · rename_i amt heqa
          have hvb : b2.value_balance = b.value_balance := by
            split at heqc
            · split at heqc
              · rw [← Except.ok.inj heqc]
              · exact absurd heqc (by simp)
            · rw [← Except.ok.inj heqc]
          have hamt : amt = (n.value : Int) := by
            split at heqa
            · exact (Except.ok.inj heqa).symm
            · exact absurd heqa (by simp)
          injection h with h1 h2
          rw [← h2]
          show b2.value_balance + amt = b.value_balance + (n.value : Int)
          omega
  | output o t v m =>
    simp only [applyOp, Builder.add_sapling_output, SaplingOutput.new, opDelta] at h ⊢
    split at h
    · exact absurd h (by simp)
    · split at h
      · exact absurd h (by simp)
      · injection h with h1 h2
        rw [← h2]
        show b.value_balance - v = b.value_balance + -v
        omega
  | tin v =>
    simp only [applyOp, Builder.add_transparent_input, opDelta] at h ⊢
    split at h
    · exact absurd h (by simp)
    · injection h with h1 h2
      rw [← h2]
      show b.value_balance = b.value_balance + 0
      omega
  | tout t v =>
    simp only [applyOp, Builder.add_transparent_output, opDelta] at h ⊢
    split at h
    · exact absurd h (by simp)
    · injection h with h1 h2
      rw [← h2]
      show b.value_balance = b.value_balance + 0
      omega

/-- Over a successful run of add operations the value balance moves by the
sum of the per-operation deltas. -/
theorem runOps_balance (ctx : Ctx) (ops : List AddOp) (b0 b1 : Builder)
    (h : runOps ctx b0 ops = some b1) :
    b1.value_balance = b0.value_balance + spendValueSum ops - outputValueSum ops := by
  induction ops generalizing b0 with
  | nil =>
    simp only [runOps, Option.some.injEq] at h
    subst h
    simp [spendValueSum, outputValueSum]
  | cons op ops ih =>
    unfold runOps at h
    split at h
    · next u b2 heq =>
      have hb := applyOp_ok_balance ctx b0 op u b2 heq
      have hr := ih b2 h
      rw [hr, hb]
      cases op <;> simp [spendValueSum, outputValueSum, opDelta] <;> ring
    · exact absurd h (by simp)

/-- C9: reached from a fresh builder by any sequence of successful adds, the
value balance equals the sum of the added spend note values minus the sum of
the added output values; per step, a spend add increases it by the note
value, an output add decreases it by the output value, and transparent adds
never change it. -/
theorem C9_value_balance_invariant :
    (∀ (ctx : Ctx) (b : Builder) (op : AddOp) (u : Unit) (b1 : Builder),
      applyOp ctx b op = (.ok u, b1) →
      b1.value_balance = b.value_balance + opDelta op) ∧
    (∀ (ctx : Ctx) (addr : Bytes) (e : Nat) (rng : List Nat) (b0 : Builder)
      (ops : List AddOp) (b1 : Builder),
      Builder.new_with_rng addr e rng = some b0 →
      runOps ctx b0 ops = some b1 →
      b1.value_balance = spendValueSum ops - outputValueSum ops) := by
  constructor
  · exact applyOp_ok_balance
  · intro ctx addr e rng b0 ops b1 h0 hr
    have hvb0 : b0.value_balance = 0 := by
      unfold Builder.new_with_rng U256.exp10 at h0
      split at h0
      · simp only [Option.map_some', Option.some.injEq] at h0
        rw [← h0]
      · simp at h0
    have := runOps_balance ctx ops b0 b1 hr
    omega

/-- The operation sequence used by the C9 witness. -/
def demoOps : List AddOp :=
  [.spend 10 0 (demoNote 5) demoPath7, .output 0 demoPayAddr 3 none, .tin 7]

/-- The builder the C9 witness run produces. -/
def demoRunResult : Builder := (runOps demoCtx fresh18 demoOps).getD fresh18

/-- Witness for C9: a fresh builder, after a successful spend(5), output(3)
and transparent-input add, has value balance 5 − 3. -/
theorem C9_witness :
    Builder.new_with_rng demoAddr 18 [1, 2, 3, 4] = some fresh18 ∧
    runOps demoCtx fresh18 demoOps = some demoRunResult ∧
    demoRunResult.value_balance = spendValueSum demoOps - outputValueSum demoOps :=
  ⟨rfl, rfl,
   C9_value_balance_invariant.2 demoCtx demoAddr 18 [1, 2, 3, 4] fresh18 demoOps
     demoRunResult rfl rfl⟩

/-- C10: on a fresh builder (no anchor, no spends), adding a spend whose note
value is not representable as an `Amount` fails with `InvalidAmount`, yet the
anchor has already been set to that rejected spend's recomputed path root
while the spend list stays unchanged; a subsequent spend rooting elsewhere
then fails with `AnchorMismatch` against the rejected spend's anchor. -/
theorem C10_failed_add_sets_anchor (ctx : Ctx) (b : Builder)
    (expsk diversifier : Nat) (note : Note) (merkle_path : MerklePath)
    (h1 : b.anchor = none) (h2 : b.spends = [])
    (h3 : MAX_MONEY < note.value) :
    (b.add_sapling_spend ctx expsk diversifier note merkle_path).1
      = .error .InvalidAmount ∧
    (b.add_sapling_spend ctx expsk diversifier note merkle_path).2.anchor
      = some (merkle_path.rootFn (ctx.noteCm note)) ∧
    (b.add_sapling_spend ctx expsk diversifier note merkle_path).2.spends
      = b.spends ∧
    ∀ (e2 d2 : Nat) (note2 : Note) (p2 : MerklePath),
      p2.rootFn (ctx.noteCm note2) ≠ merkle_path.rootFn (ctx.noteCm note) →
      ((b.add_sapling_spend ctx expsk diversifier note merkle_path).2.add_sapling_spend
          ctx e2 d2 note2 p2).1 = .error .AnchorMismatch := by
  have hlen : ¬ 2 ≤ b.spends.length := by rw [h2]; simp
  have hval : ¬ note.value ≤ MAX_MONEY := by omega
  have hstep : b.add_sapling_spend ctx expsk diversifier note merkle_path
      = (.error .InvalidAmount,
         { b with anchor := some (merkle_path.rootFn (ctx.noteCm note)),
                  rng := b.rng.tail }) := by
    unfold Builder.add_sapling_spend
    rw [if_neg hlen, h1]
    simp only [Amount.from_u64, if_neg hval]
  rw [hstep]
  refine ⟨rfl, rfl, rfl, ?_⟩
  intro e2 d2 note2 p2 hne
  unfold Builder.add_sapling_spend
  rw [if_neg (by simp [h2])]
  simp only [if_neg hne]

/-- Witness for C10: a note of value `MAX_MONEY + 1` on a fresh builder is
rejected with `InvalidAmount` but pins the anchor to 7; a following spend
rooted at 9 fails with `AnchorMismatch`. -/
theorem C10_witness :
    ((fresh18.add_sapling_spend demoCtx 10 0 bigNote demoPath7).1
      = .error .InvalidAmount) ∧
    ((fresh18.add_sapling_spend demoCtx 10 0 bigNote demoPath7).2.anchor
      = some (demoPath7.rootFn (demoCtx.noteCm bigNote))) ∧
    ((fresh18.add_sapling_spend demoCtx 10 0 bigNote demoPath7).2.spends
      = fresh18.spends) ∧
    (((fresh18.add_sapling_spend demoCtx 10 0 bigNote demoPath7).2.add_sapling_spend
        demoCtx 11 0 (demoNote 1) demoPath9).1 = .error .AnchorMismatch) := by
  have h := C10_failed_add_sets_anchor demoCtx fresh18 10 0 bigNote demoPath7
    rfl rfl (by decide)
  exact ⟨h.1, h.2.1, h.2.2.1, h.2.2.2 11 0 (demoNote 1) demoPath9 (by decide)⟩

/-! Per-branch lemmas for `build_mint` and `build_burn`. -/

theorem build_mint_pos_balance (ctx : Ctx) (prover : TxProver) (b : Builder)
    (h1 : 0 < b.value_balance) :
    b.build_mint ctx prover = some (.error .InvalidAmount) := by
  unfold Builder.build_mint
  rw [if_pos h1]

theorem build_mint_mismatch (ctx : Ctx) (prover : TxProver) (b : Builder)
    (ti : TransparentInput) (v : Nat)
    (hv : b.value_balance = -(v : Int)) (hti : b.transparent_input = some ti)
    (hlt : v * b.scaling_factor < 2 ^ 256)
    (hne : v * b.scaling_factor ≠ ti.amount) :
    b.build_mint ctx prover
      = some (.error (.InvalidTransaction "input & output amount mismatch")) := by
  have hnp : ¬ 0 < b.value_balance := by rw [hv]; omega
  have htn : (-b.value_balance).toNat = v := by rw [hv]; simp
  unfold Builder.build_mint u256Mul
  rw [if_neg hnp, hti]
  simp only [htn]
  rw [if_pos hlt]
  simp only []
  rw [if_pos hne]

theorem build_mint_overflow (ctx : Ctx) (prover : TxProver) (b : Builder)
    (ti : TransparentInput) (v : Nat)
    (hv : b.value_balance = -(v : Int)) (hti : b.transparent_input = some ti)
    (hge : 2 ^ 256 ≤ v * b.scaling_factor) :
    b.build_mint ctx prover = none := by
  have hnp : ¬ 0 < b.value_balance := by rw [hv]; omega
  have htn : (-b.value_balance).toNat = v := by rw [hv]; simp
  have hnlt : ¬ v * b.scaling_factor < 2 ^ 256 := by omega
  unfold Builder.build_mint u256Mul
  rw [if_neg hnp, hti]
  simp only [htn]
  rw [if_neg hnlt]

theorem build_mint_ok_amount (ctx : Ctx) (prover : TxProver) (b : Builder)
    (ti : TransparentInput) (p : Bytes)
    (hti : b.transparent_input = some ti)
    (h : b.build_mint ctx prover = some (.ok p)) :
    ∃ v : Nat, b.value_balance = -(v : Int) ∧ v * b.scaling_factor = ti.amount := by
  by_cases h1 : 0 < b.value_balance
  · rw [build_mint_pos_balance ctx prover b h1] at h
    simp at h
  · have hcast : ((-b.value_balance).toNat : Int) = -b.value_balance :=
      Int.toNat_of_nonneg (by omega)
    have hv : b.value_balance = -(((-b.value_balance).toNat : Nat) : Int) := by
      omega
    refine ⟨(-b.value_balance).toNat, hv, ?_⟩
    by_cases h2 : (-b.value_balance).toNat * b.scaling_factor < 2 ^ 256
    · by_cases h3 : (-b.value_balance).toNat * b.scaling_factor = ti.amount
      · exact h3
      · rw [build_mint_mismatch ctx prover b ti _ hv hti h2 h3] at h
        simp at h
    · rw [build_mint_overflow ctx prover b ti _ hv hti (by omega)] at h
      simp at h

theorem build_burn_neg (b : Builder) (h1 : b.value_balance < 0) :
    b.build_burn = some (.error .InvalidAmount) := by
  unfold Builder.build_burn
  rw [if_pos h1]

theorem build_burn_mismatch (b : Builder) (tout : TransparentOutput)
    (h1 : ¬ b.value_balance < 0) (hto : b.transparent_output = some tout)
    (hlt : b.value_balance.toNat * b.scaling_factor < 2 ^ 256)
    (hne : b.value_balance.toNat * b.scaling_factor ≠ tout.amount) :
    b.build_burn
      = some (.error (.InvalidTransaction "input & output amount mismatch")) := by
  unfold Builder.build_burn u256Mul
  rw [if_neg h1, hto]
  simp only []
  rw [if_pos hlt]
  simp only []
  rw [if_pos hne]

theorem build_burn_overflow (b : Builder) (tout : TransparentOutput)
    (h1 : ¬ b.value_balance < 0) (hto : b.transparent_output = some tout)
    (hge : 2 ^ 256 ≤ b.value_balance.toNat * b.scaling_factor) :
    b.build_burn = none := by
  have hnlt : ¬ b.value_balance.toNat * b.scaling_factor < 2 ^ 256 := by omega
  unfold Builder.build_burn u256Mul
  rw [if_neg h1, hto]
  simp only []
  rw [if_neg hnlt]

theorem build_burn_never_ok (b : Builder) (r : Bytes) :
    b.build_burn ≠ some (.ok r) := by
  intro h
  unfold Builder.build_burn at h
  split at h
  · simp at h
  · split at h
    · simp at h
    · split at h
      · simp at h
      · split at h <;> simp at h

/-- C6 (amended): for a builder classified as Mint with transparent input
`ti` — a positive value balance fails with `InvalidAmount`; with the balance
recording a shielded output value `v` (balance = −v), the build fails with
the amount-mismatch error when `v * scaling_factor` fits in 256 bits and
differs from `ti.amount`, and panics (256-bit multiplication overflow) when
`v * scaling_factor` does not fit; and every successful build has
`v * scaling_factor = ti.amount` by exact integer equality. -/
theorem C6_mint_amount_check (ctx : Ctx) (prover : TxProver) (b : Builder)
    (ti : TransparentInput) (ht : b.transaction_type = .ok .Mint)
    (hti : b.transparent_input = some ti) :
    (0 < b.value_balance → b.build ctx prover = some (.error .InvalidAmount)) ∧
    (∀ v : Nat, b.value_balance = -(v : Int) →
      (v * b.scaling_factor < 2 ^ 256 → v * b.scaling_factor ≠ ti.amount →
        b.build ctx prover
          = some (.error (.InvalidTransaction "input & output amount mismatch"))) ∧
      (2 ^ 256 ≤ v * b.scaling_factor → b.build ctx prover = none)) ∧
    (∀ r, b.build ctx prover = some (.ok r) →
      ∃ v : Nat, b.value_balance = -(v : Int) ∧ v * b.scaling_factor = ti.amount) := by
  refine ⟨?_, ?_, ?_⟩
  · intro h1
    rw [build_dispatch_mint ctx prover b ht, build_mint_pos_balance ctx prover b h1]
    rfl
  · intro v hv
    constructor
    · intro hlt hne
      rw [build_dispatch_mint ctx prover b ht,
        build_mint_mismatch ctx prover b ti v hv hti hlt hne]
      rfl
    · intro hge
      rw [build_dispatch_mint ctx prover b ht,
        build_mint_overflow ctx prover b ti v hv hti hge]
      rfl
  · intro r hr
    rw [build_dispatch_mint ctx prover b ht] at hr
    cases hb : b.build_mint ctx prover with
    | none => rw [hb] at hr; simp at hr
    | some res =>
      cases res with
      | error e => rw [hb] at hr; simp at hr
      | ok p => exact build_mint_ok_amount ctx prover b ti p hti hb

/-- Witness for C6: scaling factor `10^18`, output value 2, transparent input
5 — the scaled value `2·10^18` differs from 5, so the build fails with the
amount-mismatch error. -/
theorem C6_witness :
    Builder.build demoCtx demoProver demoMintBadB
      = some (.error (.InvalidTransaction "input & output amount mismatch")) :=
  ((C6_mint_amount_check demoCtx demoProver demoMintBadB { amount := 5 }
      (by decide) rfl).2.1 2 (by decide)).1 (by decide) (by decide)

/-- Counterexample to C6 as stated: with scaling factor `10^77` and output
value `MAX_MONEY` the scaled value differs from the transparent input 5, but
the build panics on the 256-bit multiplication overflow instead of returning
the amount-mismatch error. -/
theorem C6_counterexample :
    demoMintOvfB.transaction_type = .ok .Mint ∧
    demoMintOvfB.transparent_input = some { amount := 5 } ∧
    demoMintOvfB.value_balance = -(2100000000000000 : Int) ∧
    2100000000000000 * demoMintOvfB.scaling_factor ≠ 5 ∧
    Builder.build demoCtx demoProver demoMintOvfB = none ∧
    Builder.build demoCtx demoProver demoMintOvfB
      ≠ some (.error (.InvalidTransaction "input & output amount mismatch")) := by
  exact ⟨by decide, rfl, by decide, by decide, rfl, by decide⟩

/-- C8 (amended): for a builder classified as Burn with transparent output
`tout` — a negative value balance fails with `InvalidAmount`; a non-negative
balance whose scaled value fits in 256 bits and differs from `tout.amount`
fails with the amount-mismatch error, and panics (multiplication overflow)
when it does not fit; and no Burn build ever returns a payload (production
is unimplemented — the checks are followed by a panic). -/
theorem C8_burn_balance_checks (ctx : Ctx) (prover : TxProver) (b : Builder)
    (tout : TransparentOutput) (ht : b.transaction_type = .ok .Burn)
    (hto : b.transparent_output = some tout) :
    (b.value_balance < 0 → b.build ctx prover = some (.error .InvalidAmount)) ∧
    (¬ b.value_balance < 0 →
      (b.value_balance.toNat * b.scaling_factor < 2 ^ 256 →
        b.value_balance.toNat * b.scaling_factor ≠ tout.amount →
        b.build ctx prover
          = some (.error (.InvalidTransaction "input & output amount mismatch"))) ∧
      (2 ^ 256 ≤ b.value_balance.toNat * b.scaling_factor →
        b.build ctx prover = none)) ∧
    (∀ r, b.build ctx prover ≠ some (.ok r)) := by
  refine ⟨?_, ?_, ?_⟩
  · intro h1
    rw [build_dispatch_burn ctx prover b ht, build_burn_neg b h1]
    rfl
  · intro h1
    constructor
    · intro hlt hne
      rw [build_dispatch_burn ctx prover b ht,
        build_burn_mismatch b tout h1 hto hlt hne]
      rfl
    · intro hge
      rw [build_dispatch_burn ctx prover b ht,
        build_burn_overflow b tout h1 hto hge]
      rfl
  · intro r hr
    rw [build_dispatch_burn ctx prover b ht] at hr
    cases hb : b.build_burn with
    | none => rw [hb] at hr; simp at hr
    | some res =>
      cases res with
      | error e => rw [hb] at hr; simp at hr
      | ok p => exact build_burn_never_ok b p hb

/-- Witness for C8: one spend of value 3, transparent output 5, scaling
factor `10^18` — the scaled balance `3·10^18` differs from 5, so the build
fails with the amount-mismatch error. -/
theorem C8_witness :
    Builder.build demoCtx demoProver demoBurnBadB
      = some (.error (.InvalidTransaction "input & output amount mismatch")) :=
  ((C8_burn_balance_checks demoCtx demoProver demoBurnBadB
      { address := demoAddr, amount := 5 } (by decide) rfl).2.1 (by decide)).1
    (by decide) (by decide)

/-- Counterexample to C8 as stated: with scaling factor `10^77` and balance
`MAX_MONEY` the scaled balance differs from the transparent output 5, but the
build panics on the 256-bit multiplication overflow instead of returning the
amount-mismatch error. -/
theorem C8_counterexample :
    demoBurnOvfB.transaction_type = .ok .Burn ∧
    demoBurnOvfB.transparent_output = some { address := demoAddr, amount := 5 } ∧
    demoBurnOvfB.value_balance = (2100000000000000 : Int) ∧
    2100000000000000 * demoBurnOvfB.scaling_factor ≠ 5 ∧
    Builder.build demoCtx demoProver demoBurnOvfB = none ∧
    Builder.build demoCtx demoProver demoBurnOvfB
      ≠ some (.error (.InvalidTransaction "input & output amount mismatch")) := by
  exact ⟨by decide, rfl, by decide, by decide, rfl, by decide⟩

/-- C1 (code evaluated at the failing input): the Mint build of a builder
with scaling exponent 18, transparent input `2·10^18` and one shielded
output of value 2 succeeds, but the payload's leading 32-byte word is the
hardcoded big-endian `10^18` — not the scaled shielded-output value
`2·10^18` that the claim (and the source's own `value * scaleFactor`
comment) prescribes. -/
theorem C1_mint_payload_head_bug :
    Builder.build demoCtx demoProver demoMintB
      = some (.ok (.Mint, demoMintPayload)) ∧
    demoMintB.value_balance = -(2 : Int) ∧
    demoMintB.scaling_factor = 10 ^ 18 ∧
    (demoMintB.transparent_input.map TransparentInput.amount = some (2 * 10 ^ 18)) ∧
    slice demoMintPayload 0 32 = beBytes32 (10 ^ 18) ∧
    slice demoMintPayload 0 32 ≠ beBytes32 (2 * 10 ^ 18) := by
  exact ⟨rfl, by decide, by decide, by decide, by decide, by decide⟩

/-- The payload the Transfer build of `demoXferB` produces with the working
demo prover. -/
def demoXferPayload : Bytes :=
  match Builder.build demoCtx demoProver demoXferB with
  | some (.ok (_, p)) => p
  | _ => []

/-- C2 (code evaluated at the failing input): on a well-formed Transfer
builder that builds successfully under a working prover, a prover whose
spend-proof generation fails makes the build panic
(`expect("proving should not fail")`) — modelled as `none` — instead of
returning the spend-proof error; `Error::SpendProof` is never produced. -/
theorem C2_spend_proof_failure_panics :
    demoXferB.transaction_type = .ok .Transfer ∧
    Builder.build demoCtx demoProver demoXferB
      = some (.ok (.Transfer, demoXferPayload)) ∧
    Builder.build demoCtx failProver demoXferB = none ∧
    Builder.build demoCtx failProver demoXferB ≠ some (.error .SpendProof) := by
  exact ⟨by decide, rfl, rfl, by decide⟩

/-- When every spend carries a 64-byte signature, the tuples have their fixed
sizes and the binding signature is 64 bytes, `abi_encode_transfer` succeeds
and produces exactly the `transferPayload` shape. -/
theorem abi_encode_transfer_shape (ctx : Ctx) (spends : List SpendDescription)
    (outputs : List OutputDescription) (bsig : Bytes) (sigs : List Bytes)
    (hsig : sigsOf spends = some sigs) (hsiglen : sigs.length = spends.length)
    (hT1 : ∀ bl ∈ spends.map (spendTupleBytes ctx), bl.length = 320)
    (hT3 : ∀ bl ∈ outputs.map (outputTupleBytes ctx), bl.length = 288)
    (hS64 : ∀ bl ∈ sigs, bl.length = 64)
    (hB : bsig.length = 64) :
    abi_encode_transfer ctx spends outputs bsig
      = some (transferPayload ctx spends outputs bsig sigs) := by
  have hpad : padRight32 bsig = bsig := padRight32_of_mod bsig (by rw [hB])
  have ht1 : encTokenArray (spends.map (spendTupleBytes ctx))
      = beBytes32 spends.length ++ (spends.map (spendTupleBytes ctx)).flatten := by
    unfold encTokenArray
    rw [map_padRight32_of_const 320 _ hT1 (by norm_num), List.length_map]
  have ht2 : encTokenArray sigs = beBytes32 spends.length ++ sigs.flatten := by
    unfold encTokenArray
    rw [map_padRight32_of_const 64 _ hS64 (by norm_num), hsiglen]
  have ht3 : encTokenArray (outputs.map (outputTupleBytes ctx))
      = beBytes32 outputs.length ++ (outputs.map (outputTupleBytes ctx)).flatten := by
    unfold encTokenArray
    rw [map_padRight32_of_const 288 _ hT3 (by norm_num), List.length_map]
  have hf1 : (spends.map (spendTupleBytes ctx)).flatten.length
      = 320 * spends.length := by
    rw [flatten_length_const 320 _ hT1, List.length_map]
  have hf2 : sigs.flatten.length = 64 * spends.length := by
    rw [flatten_length_const 64 _ hS64, hsiglen]
  have hf3 : (outputs.map (outputTupleBytes ctx)).flatten.length
      = 288 * outputs.length := by
    rw [flatten_length_const 288 _ hT3, List.length_map]
  unfold abi_encode_transfer
  rw [hsig]
  simp only [ht1, ht2, ht3, hpad, hB, List.length_append, beBytes32_length,
    hf1, hf2, hf3]
  unfold transferPayload transferHead
  simp only [List.append_assoc]
  norm_num
  ring_nf

theorem readWord_zero (n : Nat) (b : Bytes) (h : n < 2 ^ 256) :
    readWord (beBytes32 n ++ b) 0 = n := by
  unfold readWord
  rw [slice_front _ _ 32 (beBytes32_length n)]
  exact natFromBeBytes_beBytes32 n h

theorem readWord_at (front : Bytes) (n : Nat) (b : Bytes) (off : Nat)
    (hoff : off = front.length) (h : n < 2 ^ 256) :
    readWord (front ++ (beBytes32 n ++ b)) off = n := by
  unfold readWord
  rw [slice_append_off front _ off 0 32 (by omega)]
  rw [slice_front _ _ 32 (beBytes32_length n)]
  exact natFromBeBytes_beBytes32 n h

theorem slice_block_at (front : Bytes) (blocks : List Bytes) (rest : Bytes)
    (L i off len fullOff : Nat) (h : ∀ bl ∈ blocks, bl.length = L)
    (hi : i < blocks.length) (hol : off + len ≤ L)
    (hoff : fullOff = front.length + (L * i + off)) :
    slice (front ++ (blocks.flatten ++ rest)) fullOff len
      = slice (blocks.get ⟨i, hi⟩) off len := by
  rw [slice_append_off front _ fullOff (L * i + off) len hoff]
  exact flatten_slice_with_rest L blocks rest h i off len hi hol

theorem spendTuple_field (ctx : Ctx) (s : SpendDescription)
    (h1 : s.nullifier.length = 32) (h2 : (ctx.frRepr s.anchor).length = 32)
    (h3 : s.cv.length = 32) (h4 : s.rk.length = 32) (h5 : s.zkproof.length = 192) :
    slice (spendTupleBytes ctx s) 0 32 = s.nullifier ∧
    slice (spendTupleBytes ctx s) 32 32 = ctx.frRepr s.anchor ∧
    slice (spendTupleBytes ctx s) 64 32 = s.cv ∧
    slice (spendTupleBytes ctx s) 96 32 = s.rk ∧
    slice (spendTupleBytes ctx s) 128 192 = s.zkproof := by
  have htup : spendTupleBytes ctx s
      = s.nullifier ++ (ctx.frRepr s.anchor ++ (s.cv ++ (s.rk ++ s.zkproof))) := by
    unfold spendTupleBytes
    simp [List.append_assoc]
  refine ⟨?_, ?_, ?_, ?_, ?_⟩
  · rw [htup]
    exact slice_front _ _ 32 h1
  · rw [htup, slice_append_off _ _ 32 0 32 (by omega)]
    exact slice_front _ _ 32 h2
  · rw [htup, slice_append_off _ _ 64 32 32 (by omega),
      slice_append_off _ _ 32 0 32 (by omega)]
    exact slice_front _ _ 32 h3
  · rw [htup, slice_append_off _ _ 96 64 32 (by omega),
      slice_append_off _ _ 64 32 32 (by omega),
      slice_append_off _ _ 32 0 32 (by omega)]
    exact slice_front _ _ 32 h4
  · rw [htup, slice_append_off _ _ 128 96 192 (by omega),
      slice_append_off _ _ 96 64 192 (by omega),
      slice_append_off _ _ 64 32 192 (by omega),
      slice_append_off _ _ 32 0 192 (by omega)]
    exact slice_self _ 192 (by omega)

theorem outputTuple_field (ctx : Ctx) (o : OutputDescription)
    (h1 : (ctx.frRepr o.cmu).length = 32) (h2 : o.cv.length = 32)
    (h3 : o.ephemeral_key.length = 32) (h4 : o.zkproof.length = 192) :
    slice (outputTupleBytes ctx o) 0 32 = ctx.frRepr o.cmu ∧
    slice (outputTupleBytes ctx o) 32 32 = o.cv ∧
    slice (outputTupleBytes ctx o) 64 32 = o.ephemeral_key ∧
    slice (outputTupleBytes ctx o) 96 192 = o.zkproof := by
  have htup : outputTupleBytes ctx o
      = ctx.frRepr o.cmu ++ (o.cv ++ (o.ephemeral_key ++ o.zkproof)) := by
    unfold outputTupleBytes
    simp [List.append_assoc]
  refine ⟨?_, ?_, ?_, ?_⟩
  · rw [htup]
    exact slice_front _ _ 32 h1
  · rw [htup, slice_append_off _ _ 32 0 32 (by omega)]
    exact slice_front _ _ 32 h2
  · rw [htup, slice_append_off _ _ 64 32 32 (by omega),
      slice_append_off _ _ 32 0 32 (by omega)]
    exact slice_front _ _ 32 h3
  · rw [htup, slice_append_off _ _ 96 64 192 (by omega),
      slice_append_off _ _ 64 32 192 (by omega),
      slice_append_off _ _ 32 0 192 (by omega)]
    exact slice_self _ 192 (by omega)

/-- C7: decoding a produced Transfer payload per the documented
five-parallel-array layout (per-spend `bytes32[10]` tuples of nullifier,
anchor, value commitment, randomized key, proof; per-spend `bytes32[2]`
signatures; per-output `bytes32[9]` tuples of commitment, value commitment,
ephemeral key, proof; a `bytes32[2]` binding signature; per-output
`bytes32[21]` ciphertext tuples) recovers exactly the nullifiers, anchors,
commitments and proof byte strings fed into the encoder, with array elements
in the order the legs were added, and length words equal to the counts. -/
theorem C7_transfer_encoding_roundtrip (ctx : Ctx) (spends : List SpendDescription)
    (outputs : List OutputDescription) (bsig : Bytes)
    (hS2 : spends.length ≤ 2) (hO2 : outputs.length ≤ 2)
    (hWS : ∀ s ∈ spends, s.nullifier.length = 32 ∧
      (ctx.frRepr s.anchor).length = 32 ∧ s.cv.length = 32 ∧ s.rk.length = 32 ∧
      s.zkproof.length = 192 ∧ ∃ sg, s.spend_auth_sig = some sg ∧ sg.length = 64)
    (hWO : ∀ o ∈ outputs, (ctx.frRepr o.cmu).length = 32 ∧ o.cv.length = 32 ∧
      o.ephemeral_key.length = 32 ∧ o.zkproof.length = 192)
    (hB : bsig.length = 64) :
    ∃ p, abi_encode_transfer ctx spends outputs bsig = some p ∧
      decodeSpendCount p = spends.length ∧
      decodeOutputCount p = outputs.length ∧
      (∀ (i : Nat) (hi : i < spends.length),
        decodeNullifier p i = (spends.get ⟨i, hi⟩).nullifier ∧
        decodeSpendAnchor p i = ctx.frRepr (spends.get ⟨i, hi⟩).anchor ∧
        decodeSpendCv p i = (spends.get ⟨i, hi⟩).cv ∧
        decodeSpendRk p i = (spends.get ⟨i, hi⟩).rk ∧
        decodeSpendProof p i = (spends.get ⟨i, hi⟩).zkproof) ∧
      (∀ (i : Nat) (hi : i < outputs.length),
        decodeOutputCmu p i = ctx.frRepr (outputs.get ⟨i, hi⟩).cmu ∧
        decodeOutputCv p i = (outputs.get ⟨i, hi⟩).cv ∧
        decodeOutputEpk p i = (outputs.get ⟨i, hi⟩).ephemeral_key ∧
        decodeOutputProof p i = (outputs.get ⟨i, hi⟩).zkproof) := by
  obtain ⟨sigs, hsig, hsiglen, hsig64⟩ :=
    sigsOf_some spends fun s hs => (hWS s hs).2.2.2.2.2
  have hT1 : ∀ bl ∈ spends.map (spendTupleBytes ctx), bl.length = 320 := by
    intro bl hbl
    obtain ⟨s, hs, rfl⟩ := List.mem_map.mp hbl
    obtain ⟨k1, k2, k3, k4, k5, _⟩ := hWS s hs
    simp [spendTupleBytes, k1, k2, k3, k4, k5]
  have hT3 : ∀ bl ∈ outputs.map (outputTupleBytes ctx), bl.length = 288 := by
    intro bl hbl
    obtain ⟨o, ho, rfl⟩ := List.mem_map.mp hbl
    obtain ⟨k1, k2, k3, k4⟩ := hWO o ho
    simp [outputTupleBytes, k1, k2, k3, k4]
  have hf1 : (spends.map (spendTupleBytes ctx)).flatten.length
      = 320 * spends.length := by
    rw [flatten_length_const 320 _ hT1, List.length_map]
  have hf2 : sigs.flatten.length = 64 * spends.length := by
    rw [flatten_length_const 64 _ hsig64, hsiglen]
  have henc := abi_encode_transfer_shape ctx spends outputs bsig sigs hsig
    hsiglen hT1 hT3 hsig64 hB
  have hhl : (transferHead spends.length outputs.length bsig).length = 192 := by
    simp [transferHead, beBytes32_length, hB]
  have hv0 : transferPayload ctx spends outputs bsig sigs
      = beBytes32 192 ++
        (beBytes32 (224 + 320 * spends.length) ++
          (beBytes32 (256 + 384 * spends.length) ++
            (bsig ++
              (beBytes32 (288 + 384 * spends.length + 288 * outputs.length) ++
                (beBytes32 spends.length ++
                  ((spends.map (spendTupleBytes ctx)).flatten ++
                    (beBytes32 spends.length ++
                      (sigs.flatten ++
                        (beBytes32 outputs.length ++
                          ((outputs.map (outputTupleBytes ctx)).flatten ++
                            encTokenArray (outputs.map cTupleBytes))))))))))) := by
    unfold transferPayload transferHead
    simp [List.append_assoc]
  have hv1 : transferPayload ctx spends outputs bsig sigs
      = transferHead spends.length outputs.length bsig ++
        (beBytes32 spends.length ++
          ((spends.map (spendTupleBytes ctx)).flatten ++
            (beBytes32 spends.length ++
              (sigs.flatten ++
                (beBytes32 outputs.length ++
                  ((outputs.map (outputTupleBytes ctx)).flatten ++
                    encTokenArray (outputs.map cTupleBytes))))))) := by
    unfold transferPayload
    simp [List.append_assoc]
  have hv2 : transferPayload ctx spends outputs bsig sigs
      = (transferHead spends.length outputs.length bsig ++ beBytes32 spends.length) ++
        ((spends.map (spendTupleBytes ctx)).flatten ++
          (beBytes32 spends.length ++
            (sigs.flatten ++
              (beBytes32 outputs.length ++
                ((outputs.map (outputTupleBytes ctx)).flatten ++
                  encTokenArray (outputs.map cTupleBytes)))))) := by
    unfold transferPayload
    simp [List.append_assoc]
  have hv3 : transferPayload ctx spends outputs bsig sigs
      = (beBytes32 192 ++ beBytes32 (224 + 320 * spends.length)) ++
        (beBytes32 (256 + 384 * spends.length) ++
          (bsig ++
            (beBytes32 (288 + 384 * spends.length + 288 * outputs.length) ++
              (beBytes32 spends.length ++
                ((spends.map (spendTupleBytes ctx)).flatten ++
                  (beBytes32 spends.length ++
                    (sigs.flatten ++
                      (beBytes32 outputs.length ++
                        ((outputs.map (outputTupleBytes ctx)).flatten ++
                          encTokenArray (outputs.map cTupleBytes)))))))))) := by
    unfold transferPayload transferHead
    simp [List.append_assoc]
  have hv4 : transferPayload ctx spends outputs bsig sigs
      = (transferHead spends.length outputs.length bsig ++
          ((beBytes32 spends.length ++ (spends.map (spendTupleBytes ctx)).flatten) ++
            (beBytes32 spends.length ++ sigs.flatten))) ++
        (beBytes32 outputs.length ++
          ((outputs.map (outputTupleBytes ctx)).flatten ++
            encTokenArray (outputs.map cTupleBytes))) := by
    unfold transferPayload
    simp [List.append_assoc]
  have hv5 : transferPayload ctx spends outputs bsig sigs
      = ((transferHead spends.length outputs.length bsig ++
          ((beBytes32 spends.length ++ (spends.map (spendTupleBytes ctx)).flatten) ++
            (beBytes32 spends.length ++ sigs.flatten))) ++ beBytes32 outputs.length) ++
        ((outputs.map (outputTupleBytes ctx)).flatten ++
          encTokenArray (outputs.map cTupleBytes)) := by
    unfold transferPayload
    simp [List.append_assoc]
  have hF2len : (transferHead spends.length outputs.length bsig ++
      beBytes32 spends.length).length = 224 := by
    simp only [List.length_append, hhl, beBytes32_length]
  have hF4len : (transferHead spends.length outputs.length bsig ++
      ((beBytes32 spends.length ++ (spends.map (spendTupleBytes ctx)).flatten) ++
        (beBytes32 spends.length ++ sigs.flatten))).length
      = 256 + 384 * spends.length := by
    simp only [List.length_append, hhl, beBytes32_length, hf1, hf2]
    omega
  have hF5len : ((transferHead spends.length outputs.length bsig ++
      ((beBytes32 spends.length ++ (spends.map (spendTupleBytes ctx)).flatten) ++
        (beBytes32 spends.length ++ sigs.flatten))) ++ beBytes32 outputs.length).length
      = 288 + 384 * spends.length := by
    simp only [List.length_append, hhl, beBytes32_length, hf1, hf2]
    omega
  have hw0 : readWord (transferPayload ctx spends outputs bsig sigs) 0 = 192 := by
    rw [hv0]
    exact readWord_zero 192 _ (by norm_num)
  have hc1 : readWord (transferPayload ctx spends outputs bsig sigs) 192
      = spends.length := by
    rw [hv1]
    exact readWord_at _ _ _ 192 hhl.symm (by omega)
  have hw64 : readWord (transferPayload ctx spends outputs bsig sigs) 64
      = 256 + 384 * spends.length := by
    rw [hv3]
    exact readWord_at _ _ _ 64 (by simp [List.length_append, beBytes32_length])
      (by omega)
  have hc3 : readWord (transferPayload ctx spends outputs bsig sigs)
      (256 + 384 * spends.length) = outputs.length := by
    rw [hv4]
    exact readWord_at _ _ _ _ hF4len.symm (by omega)
  refine ⟨transferPayload ctx spends outputs bsig sigs, henc, ?_, ?_, ?_, ?_⟩
  · unfold decodeSpendCount spendArrayOff
    rw [hw0, hc1]
  · unfold decodeOutputCount outputArrayOff
    rw [hw64, hc3]
  · intro i hi
    have hi1 : i < (spends.map (spendTupleBytes ctx)).length := by
      simpa using hi
    have hget : (spends.map (spendTupleBytes ctx)).get ⟨i, hi1⟩
        = spendTupleBytes ctx (spends.get ⟨i, hi⟩) := get_map_eq _ _ i hi hi1
    obtain ⟨k1, k2, k3, k4, k5, _⟩ :=
      hWS (spends.get ⟨i, hi⟩) (spends.get_mem i hi)
    have hfield := spendTuple_field ctx (spends.get ⟨i, hi⟩) k1 k2 k3 k4 k5
    have ho0 : 192 + 32 + 320 * i
        = (transferHead spends.length outputs.length bsig ++
            beBytes32 spends.length).length + (320 * i + 0) := by omega
    have ho32 : 192 + 32 + 320 * i + 32
        = (transferHead spends.length outputs.length bsig ++
            beBytes32 spends.length).length + (320 * i + 32) := by omega
    have ho64 : 192 + 32 + 320 * i + 64
        = (transferHead spends.length outputs.length bsig ++
            beBytes32 spends.length).length + (320 * i + 64) := by omega
    have ho96 : 192 + 32 + 320 * i + 96
        = (transferHead spends.length outputs.length bsig ++
            beBytes32 spends.length).length + (320 * i + 96) := by omega
    have ho128 : 192 + 32 + 320 * i + 128
        = (transferHead spends.length outputs.length bsig ++
            beBytes32 spends.length).length + (320 * i + 128) := by omega
    refine ⟨?_, ?_, ?_, ?_, ?_⟩
    · unfold decodeNullifier spendArrayOff
      rw [hw0, hv2,
        slice_block_at _ _ _ 320 i 0 32 _ hT1 hi1 (by norm_num) ho0, hget]
      exact hfield.1
    · unfold decodeSpendAnchor spendArrayOff
      rw [hw0, hv2,
        slice_block_at _ _ _ 320 i 32 32 _ hT1 hi1 (by norm_num) ho32, hget]
      exact hfield.2.1
    · unfold decodeSpendCv spendArrayOff
      rw [hw0, hv2,
        slice_block_at _ _ _ 320 i 64 32 _ hT1 hi1 (by norm_num) ho64, hget]
      exact hfield.2.2.1
    · unfold decodeSpendRk spendArrayOff
      rw [hw0, hv2,
        slice_block_at _ _ _ 320 i 96 32 _ hT1 hi1 (by norm_num) ho96, hget]
      exact hfield.2.2.2.1
    · unfold decodeSpendProof spendArrayOff
      rw [hw0, hv2,
        slice_block_at _ _ _ 320 i 128 192 _ hT1 hi1 (by norm_num) ho128, hget]
      exact hfield.2.2.2.2
  · intro i hi
    have hi1 : i < (outputs.map (outputTupleBytes ctx)).length := by
      simpa using hi
    have hget : (outputs.map (outputTupleBytes ctx)).get ⟨i, hi1⟩
        = outputTupleBytes ctx (outputs.get ⟨i, hi⟩) := get_map_eq _ _ i hi hi1
    obtain ⟨k1, k2, k3, k4⟩ :=
      hWO (outputs.get ⟨i, hi⟩) (outputs.get_mem i hi)
    have hfield := outputTuple_field ctx (outputs.get ⟨i, hi⟩) k1 k2 k3 k4
    have ho0 : 256 + 384 * spends.length + 32 + 288 * i
        = ((transferHead spends.length outputs.length bsig ++
            ((beBytes32 spends.length ++ (spends.map (spendTupleBytes ctx)).flatten) ++
              (beBytes32 spends.length ++ sigs.flatten))) ++
            beBytes32 outputs.length).length + (288 * i + 0) := by omega
    have ho32 : 256 + 384 * spends.length + 32 + 288 * i + 32
        = ((transferHead spends.length outputs.length bsig ++
            ((beBytes32 spends.length ++ (spends.map (spendTupleBytes ctx)).flatten) ++
              (beBytes32 spends.length ++ sigs.flatten))) ++
            beBytes32 outputs.length).length + (288 * i + 32) := by omega
    have ho64 : 256 + 384 * spends.length + 32 + 288 * i + 64
        = ((transferHead spends.length outputs.length bsig ++
            ((beBytes32 spends.length ++ (spends.map (spendTupleBytes ctx)).flatten) ++
              (beBytes32 spends.length ++ sigs.flatten))) ++
            beBytes32 outputs.length).length + (288 * i + 64) := by omega
    have ho96 : 256 + 384 * spends.length + 32 + 288 * i + 96
        = ((transferHead spends.length outputs.length bsig ++
            ((beBytes32 spends.length ++ (spends.map (spendTupleBytes ctx)).flatten) ++
              (beBytes32 spends.length ++ sigs.flatten))) ++
            beBytes32 outputs.length).length + (288 * i + 96) := by omega
    refine ⟨?_, ?_, ?_, ?_⟩
    · unfold decodeOutputCmu outputArrayOff
      rw [hw64, hv5,
        slice_block_at _ _ _ 288 i 0 32 _ hT3 hi1 (by norm_num) ho0, hget]
      exact hfield.1
    · unfold decodeOutputCv outputArrayOff
      rw [hw64, hv5,
        slice_block_at _ _ _ 288 i 32 32 _ hT3 hi1 (by norm_num) ho32, hget]
      exact hfield.2.1
    · unfold decodeOutputEpk outputArrayOff
      rw [hw64, hv5,
        slice_block_at _ _ _ 288 i 64 32 _ hT3 hi1 (by norm_num) ho64, hget]
      exact hfield.2.2.1
    · unfold decodeOutputProof outputArrayOff
      rw [hw64, hv5,
        slice_block_at _ _ _ 288 i 96 192 _ hT3 hi1 (by norm_num) ho96, hget]
      exact hfield.2.2.2

set_option maxRecDepth 4000 in
/-- Witness for C7: one concrete spend descriptor and one concrete output
descriptor round-trip through the encoder. -/
theorem C7_witness :
    ∃ p, abi_encode_transfer demoCtx [demoSpendDesc] [demoOutputDesc]
        (List.replicate 64 12) = some p ∧
      decodeSpendCount p = 1 ∧
      decodeOutputCount p = 1 ∧
      decodeNullifier p 0 = demoSpendDesc.nullifier ∧
      decodeSpendAnchor p 0 = demoCtx.frRepr demoSpendDesc.anchor ∧
      decodeSpendProof p 0 = demoSpendDesc.zkproof ∧
      decodeOutputCmu p 0 = demoCtx.frRepr demoOutputDesc.cmu ∧
      decodeOutputProof p 0 = demoOutputDesc.zkproof := by
  obtain ⟨p, h1, h2, h3, h4, h5⟩ :=
    C7_transfer_encoding_roundtrip demoCtx [demoSpendDesc] [demoOutputDesc]
      (List.replicate 64 12) (by decide) (by decide)
      (by
        intro s hs
        rw [List.mem_singleton.mp hs]
        exact ⟨by decide, by decide, by decide, by decide, by decide,
          List.replicate 64 25, rfl, by decide⟩)
      (by
        intro o ho
        rw [List.mem_singleton.mp ho]
        exact ⟨by decide, by decide, by decide, by decide⟩)
      (by decide)
  obtain ⟨n1, n2, n3, n4, n5⟩ := h4 0 (by decide)
  obtain ⟨m1, m2, m3, m4⟩ := h5 0 (by decide)
  exact ⟨p, h1, h2, h3, n1, n2, n5, m1, m4⟩

end Ztron
